import Mathlib

/-!
Shallow embedding of `src/GIC/CNN/model.py` (repository QuietXO/Booored).

The module defines one convolutional network architecture (`ConvNet`) and three
procedural helpers (`train_model`, `load_model`, `save_model`).  Tensor math,
autograd and device execution are delegated to the external numerical library;
what this file embeds is the code this repository actually contains:

* the dimension bookkeeping of `ConvNet.convolution` and `ConvNet.pooling`
  (Python integers are modelled as `ℤ`; Python `int(a / b)` is truncation
  toward zero, modelled by `Int.tdiv`; `math.ceil(a / b)` is modelled by
  `pyCeil`; both are meaningful for a non-zero divisor — Python raises
  `ZeroDivisionError` at `b = 0`, and every theorem below stays in the
  non-zero-divisor domain);
* the epoch/step loss bookkeeping of `train_model` (loss values, produced by
  the criterion, are modelled as `ℚ`; the evolving model/optimizer state is an
  abstract state type threaded through a step function);
* the checkpoint plumbing of `save_model` / `load_model` (the file system is a
  map from paths to stored parameter states; `torch.load` of a missing file
  fails) and the accuracy tallies of `load_model` (fallible float divisions
  return `Except`, a `ZeroDivisionError` value standing for the raised Python
  exception).  Progress printing and the `show_wrongs` display of misclassified
  samples affect no returned value and no recorded state and are not modelled.
-/

/-- Python `int(a / b)` on integers: true division followed by truncation
toward zero.  Meaningful for `b ≠ 0`. -/
def pyTrunc (a b : ℤ) : ℤ := Int.tdiv a b

/-- Python `math.ceil(a / b)` on integers: the ceiling of the exact quotient,
written as the negated floor division of the negation.  Meaningful for
`b ≠ 0`. -/
def pyCeil (a b : ℤ) : ℤ := -(Int.fdiv (-a) b)

/-- Function `conv_out` (model.py lines 133-134):
`int((size + 2*padding - kernel)/stride) + 1`. -/
def conv_out (size padding kernel stride : ℤ) : ℤ :=
  pyTrunc (size + 2 * padding - kernel) stride + 1

/-- The dimension-tracking attributes of a `ConvNet` instance: recorded image
height and width and the output-channel count of the last convolution
(model.py lines 140-143). -/
structure ConvNet where
  img_h : ℤ
  img_w : ℤ
  last_out : ℤ
  deriving DecidableEq

/-- An `nn.Conv2d(in_size, out_size, kernel, padding=...)` layer value, kept
symbolic: its arithmetic lives in the external library. -/
structure Conv2d where
  in_size : ℤ
  out_size : ℤ
  kernel : ℤ
  padding : ℤ
  deriving DecidableEq

/-- A pooling layer value (`nn.MaxPool2d` / `nn.AvgPool2d` / `nn.LPPool2d`),
kept symbolic. -/
inductive PoolLayer where
  | maxPool2d (kernel stride : ℤ)
  | avgPool2d (kernel stride : ℤ)
  | lpPool2d (kernel stride : ℤ)
  deriving DecidableEq

/-- What `ConvNet.pooling` hands back to its caller: either a pooling layer or
a `TypeError("Unknown Type")` VALUE — the Python code returns the error object,
it does not raise it. -/
inductive PoolResult where
  | layer (l : PoolLayer)
  | typeError (msg : String)
  deriving DecidableEq

/-- Method `ConvNet.convolution` (model.py lines 168-188).  Sets
`last_out := out_size`; with `padding = -1` ("auto") the recorded dimensions
become `ceil(size/stride)` and the layer gets padding `int(kernel/2)`;
otherwise each dimension becomes `int((size + 2*padding - kernel)/stride) + 1`.
Returns the updated state together with the constructed layer. -/
def ConvNet.convolution (s : ConvNet) (in_size out_size kernel stride padding : ℤ) :
    ConvNet × Conv2d :=
  let s1 : ConvNet := { s with last_out := out_size }
  if padding = -1 then
    ({ s1 with img_h := pyCeil s1.img_h stride, img_w := pyCeil s1.img_w stride },
     { in_size := in_size, out_size := out_size, kernel := kernel,
       padding := pyTrunc kernel 2 })
  else
    ({ s1 with img_h := pyTrunc (s1.img_h + 2 * padding - kernel) stride + 1,
               img_w := pyTrunc (s1.img_w + 2 * padding - kernel) stride + 1 },
     { in_size := in_size, out_size := out_size, kernel := kernel, padding := padding })

/-- Method `ConvNet.pooling` (model.py lines 191-209).  First floors (by
Python `int()` truncation) both recorded dimensions by `stride`, then
dispatches on `pool_type`; an unknown `pool_type` returns the
`TypeError("Unknown Type")` value. -/
def ConvNet.pooling (s : ConvNet) (kernel stride : ℤ) (pool_type : String) :
    ConvNet × PoolResult :=
  let s1 : ConvNet :=
    { s with img_h := pyTrunc s.img_h stride, img_w := pyTrunc s.img_w stride }
  if pool_type = "max" then (s1, PoolResult.layer (PoolLayer.maxPool2d kernel stride))
  else if pool_type = "avg" then (s1, PoolResult.layer (PoolLayer.avgPool2d kernel stride))
  else if pool_type = "lp" then (s1, PoolResult.layer (PoolLayer.lpPool2d kernel stride))
  else (s1, PoolResult.typeError "Unknown Type")

lemma pyTrunc_eq_fdiv (a b : ℤ) (ha : 0 ≤ a) (hb : 0 < b) :
    pyTrunc a b = Int.fdiv a b := by
  unfold pyTrunc
  rw [Int.tdiv_eq_ediv ha (le_of_lt hb), Int.fdiv_eq_ediv _ (le_of_lt hb)]

lemma pyTrunc_lt_self (a b : ℤ) (ha : 0 < a) (hb : 1 < b) : pyTrunc a b < a := by
  unfold pyTrunc
  rw [Int.tdiv_eq_ediv (le_of_lt ha) (by linarith)]
  exact Int.ediv_lt_of_lt_mul (by linarith) (by nlinarith)

lemma ConvNet.pooling_fst (s : ConvNet) (kernel stride : ℤ) (pool_type : String) :
    (s.pooling kernel stride pool_type).1
      = { s with img_h := pyTrunc s.img_h stride, img_w := pyTrunc s.img_w stride } := by
  unfold ConvNet.pooling
  split_ifs <;> rfl

lemma ConvNet.pooling_snd_unknown (s : ConvNet) (kernel stride : ℤ) (pool_type : String)
    (h1 : pool_type ≠ "max") (h2 : pool_type ≠ "avg") (h3 : pool_type ≠ "lp") :
    (s.pooling kernel stride pool_type).2 = PoolResult.typeError "Unknown Type" := by
  unfold ConvNet.pooling
  simp [h1, h2, h3]

/-- C1 counterexample: size 0, padding 0, kernel 3, stride 2 lie in the
claim's domain (all non-negative, stride positive), yet `conv_out` returns
`0` while `floor((size + 2*padding - kernel)/stride) + 1 = -1`: Python
`int()` truncates toward zero, it does not floor, and the two differ when
`size + 2*padding < kernel`. -/
theorem conv_out_not_floor_at_0_0_3_2 :
    (0 : ℤ) ≤ 0 ∧ (0 : ℤ) ≤ 0 ∧ (0 : ℤ) ≤ 3 ∧ (0 : ℤ) < 2 ∧
      conv_out 0 0 3 2 ≠ Int.fdiv (0 + 2 * 0 - 3) 2 + 1 := by
  refine ⟨le_refl 0, le_refl 0, by norm_num, by norm_num, ?_⟩
  decide

/-- C1 (amended): for non-negative size, padding, kernel and positive stride,
and additionally `kernel ≤ size + 2*padding` (non-negative numerator, where
truncation and floor agree), `conv_out` returns exactly
`floor((size + 2*padding - kernel)/stride) + 1`; moreover the explicit-padding
branch of `ConvNet.convolution` (`padding ≠ -1`) computes exactly
`conv_out` on each recorded dimension. -/
theorem conv_out_is_floor_formula (size padding kernel stride : ℤ)
    (hs : 0 ≤ size) (hp : 0 ≤ padding) (hk : 0 ≤ kernel) (hst : 0 < stride)
    (hnum : kernel ≤ size + 2 * padding) :
    conv_out size padding kernel stride
        = Int.fdiv (size + 2 * padding - kernel) stride + 1 ∧
      ∀ (s : ConvNet) (in_size out_size : ℤ), padding ≠ -1 →
        (s.convolution in_size out_size kernel stride padding).1.img_h
            = conv_out s.img_h padding kernel stride ∧
          (s.convolution in_size out_size kernel stride padding).1.img_w
            = conv_out s.img_w padding kernel stride := by
  constructor
  · unfold conv_out
    rw [pyTrunc_eq_fdiv _ _ (by linarith) hst]
  · intro s in_size out_size hpad
    unfold ConvNet.convolution conv_out
    simp [hpad]

/-- Witness for C1: at the concrete case (size 28, padding 2, kernel 5,
stride 1) the formula applies and evaluates to 28. -/
theorem conv_out_is_floor_formula_witness :
    conv_out 28 2 5 1 = Int.fdiv (28 + 2 * 2 - 5) 1 + 1 ∧ conv_out 28 2 5 1 = 28 :=
  ⟨(conv_out_is_floor_formula 28 2 5 1 (by norm_num) (by norm_num) (by norm_num)
      (by norm_num) (by norm_num)).1, by decide⟩

/-- C3: for every pool type other than `"max"`, `"avg"` and `"lp"`,
`ConvNet.pooling` RETURNS the `TypeError("Unknown Type")` value as its
result — in this embedding the error object sits in the `PoolResult` a caller
receives in place of a layer; nothing is raised. -/
theorem pooling_unknown_type_returns_error (s : ConvNet) (kernel stride : ℤ)
    (pool_type : String)
    (h1 : pool_type ≠ "max") (h2 : pool_type ≠ "avg") (h3 : pool_type ≠ "lp") :
    (s.pooling kernel stride pool_type).2 = PoolResult.typeError "Unknown Type" :=
  ConvNet.pooling_snd_unknown s kernel stride pool_type h1 h2 h3

/-- Witness for C3: pool type `"median"` at a concrete state. -/
theorem pooling_unknown_type_returns_error_witness :
    (ConvNet.pooling ⟨28, 28, 16⟩ 2 2 "median").2 = PoolResult.typeError "Unknown Type" :=
  pooling_unknown_type_returns_error ⟨28, 28, 16⟩ 2 2 "median"
    (by decide) (by decide) (by decide)

/-- C5: calling `ConvNet.convolution` with `padding = -1` (auto mode) and
`stride = 1` leaves the recorded dimensions unchanged, for every starting
state, input/output channel count and kernel: `ceil(size/1) = size`. -/
theorem convolution_auto_padding_stride_one_preserves_dims
    (s : ConvNet) (in_size out_size kernel : ℤ) :
    (s.convolution in_size out_size kernel 1 (-1)).1.img_h = s.img_h ∧
      (s.convolution in_size out_size kernel 1 (-1)).1.img_w = s.img_w := by
  unfold ConvNet.convolution
  simp [pyCeil, Int.fdiv_one]

/-- C6 counterexample: with recorded height 3 and stride -2, pooling records
`int(3 / -2) = -1`, but `floor(3 / -2) = -2`: Python `int()` truncates toward
zero, so "pooling floors each dimension by size/stride" fails for a negative
quotient, hence not for every stride. -/
theorem pooling_not_floor_at_stride_neg_two :
    (ConvNet.pooling ⟨3, 3, 16⟩ 2 (-2) "max").1.img_h ≠ Int.fdiv 3 (-2) := by
  decide

/-- C6 (amended): for non-negative recorded dimensions and positive stride —
where truncation and floor agree — `ConvNet.pooling` updates the recorded
dimensions to `floor(img_h/stride)` and `floor(img_w/stride)`, for every
kernel and every pool type (known or not). -/
theorem pooling_floors_dims (s : ConvNet) (kernel stride : ℤ) (pool_type : String)
    (hh : 0 ≤ s.img_h) (hw : 0 ≤ s.img_w) (hst : 0 < stride) :
    (s.pooling kernel stride pool_type).1.img_h = Int.fdiv s.img_h stride ∧
      (s.pooling kernel stride pool_type).1.img_w = Int.fdiv s.img_w stride := by
  rw [ConvNet.pooling_fst]
  exact ⟨pyTrunc_eq_fdiv _ _ hh hst, pyTrunc_eq_fdiv _ _ hw hst⟩

/-- Witness for C6: a 28×28 state pooled at stride 3 (with pool type `"avg"`,
showing independence from the type) records `floor(28/3) = 9`. -/
theorem pooling_floors_dims_witness :
    ((ConvNet.pooling ⟨28, 28, 16⟩ 3 3 "avg").1.img_h = Int.fdiv 28 3 ∧
        (ConvNet.pooling ⟨28, 28, 16⟩ 3 3 "avg").1.img_w = Int.fdiv 28 3) ∧
      Int.fdiv 28 3 = 9 :=
  ⟨pooling_floors_dims ⟨28, 28, 16⟩ 3 3 "avg" (by decide) (by decide) (by decide),
    by decide⟩

/-- C10: `ConvNet.pooling` mutates the recorded dimensions BEFORE validating
`pool_type`: a call with an unknown pool type both returns the
`TypeError` value and still divides the recorded dimensions by the stride
(the same update the success path performs), strictly shrinking them whenever
they were positive and the stride exceeds 1 — the state is not left unchanged
on the error path. -/
theorem pooling_mutates_dims_before_validation (s : ConvNet) (kernel stride : ℤ)
    (pool_type : String)
    (h1 : pool_type ≠ "max") (h2 : pool_type ≠ "avg") (h3 : pool_type ≠ "lp")
    (hh : 0 < s.img_h) (hw : 0 < s.img_w) (hst : 1 < stride) :
    (s.pooling kernel stride pool_type).2 = PoolResult.typeError "Unknown Type" ∧
      (s.pooling kernel stride pool_type).1.img_h = pyTrunc s.img_h stride ∧
      (s.pooling kernel stride pool_type).1.img_w = pyTrunc s.img_w stride ∧
      (s.pooling kernel stride pool_type).1.img_h < s.img_h ∧
      (s.pooling kernel stride pool_type).1.img_w < s.img_w := by
  refine ⟨ConvNet.pooling_snd_unknown s kernel stride pool_type h1 h2 h3, ?_, ?_, ?_, ?_⟩ <;>
    rw [ConvNet.pooling_fst]
  · exact pyTrunc_lt_self _ _ hh hst
  · exact pyTrunc_lt_self _ _ hw hst

/-- Witness for C10: pooling a 28×28 state at stride 2 with unknown pool type
`"median"` returns the error value yet shrinks both dimensions. -/
theorem pooling_mutates_dims_before_validation_witness :
    ((ConvNet.pooling ⟨28, 28, 16⟩ 2 2 "median").2 = PoolResult.typeError "Unknown Type" ∧
        (ConvNet.pooling ⟨28, 28, 16⟩ 2 2 "median").1.img_h = pyTrunc 28 2 ∧
        (ConvNet.pooling ⟨28, 28, 16⟩ 2 2 "median").1.img_w = pyTrunc 28 2 ∧
        (ConvNet.pooling ⟨28, 28, 16⟩ 2 2 "median").1.img_h < 28 ∧
        (ConvNet.pooling ⟨28, 28, 16⟩ 2 2 "median").1.img_w < 28) ∧
      pyTrunc 28 2 = 14 :=
  ⟨pooling_mutates_dims_before_validation ⟨28, 28, 16⟩ 2 2 "median"
      (by decide) (by decide) (by decide) (by decide) (by decide) (by decide),
    by decide⟩

/-- One epoch of the inner batch loop of `train_model` (model.py lines 35-51):
starting from model/optimizer state `s`, with per-epoch accumulators
`mean_loss = 0` and `loss_counter = 0`, each batch runs one forward/backward/
optimize step (abstracted as `step`, which maps state and batch to the next
state and the scalar loss `loss.item()`), adds the loss to `mean_loss` and
increments `loss_counter`.  Returns the final state, `mean_loss` and
`loss_counter`. -/
def runEpoch {σ β : Type} (step : σ → β → σ × ℚ) (data : List β) (s : σ) :
    σ × ℚ × ℕ :=
  data.foldl
    (fun acc b => ((step acc.1 b).1, acc.2.1 + (step acc.1 b).2, acc.2.2 + 1))
    (s, 0, 0)

/-- The body of the epoch loop of `train_model`: `mean_loss` is reset to 0 at
the start of each epoch (so only the current epoch's accumulation survives)
and the state evolves through the batch loop. -/
def epochBody {σ β : Type} (step : σ → β → σ × ℚ) (data : List β) (acc : σ × ℚ) :
    σ × ℚ :=
  ((runEpoch step data acc.1).1, (runEpoch step data acc.1).2.1)

/-- Function `train_model` (model.py lines 11-58), with printing omitted:
`mean_loss` starts at 0, each of the `n_epochs` epochs resets it and
re-accumulates, and the returned value is the final `mean_loss` divided by
`n_total_steps = len(data_loader)`. -/
def train_model {σ β : Type} (step : σ → β → σ × ℚ) (s0 : σ) (data : List β)
    (n_epochs : ℕ) : ℚ :=
  let n_total_steps : ℕ := data.length
  let r := (List.range n_epochs).foldl (fun acc _ => epochBody step data acc) (s0, 0)
  r.2 / (n_total_steps : ℚ)

/-- The model/optimizer state reached after `k` whole epochs of training. -/
def trainState {σ β : Type} (step : σ → β → σ × ℚ) (s0 : σ) (data : List β) :
    ℕ → σ
  | 0 => s0
  | k + 1 => (runEpoch step data (trainState step s0 data k)).1

/-- The sum of the per-batch loss values produced during epoch `k`
(0-indexed) of a `train_model` run. -/
def epochLossSum {σ β : Type} (step : σ → β → σ × ℚ) (s0 : σ) (data : List β)
    (k : ℕ) : ℚ :=
  (runEpoch step data (trainState step s0 data k)).2.1

lemma train_fold_eq {σ β : Type} (step : σ → β → σ × ℚ) (s0 : σ) (data : List β) :
    ∀ n : ℕ,
      (List.range n).foldl (fun acc _ => epochBody step data acc) (s0, 0)
        = (trainState step s0 data n,
            if n = 0 then 0 else epochLossSum step s0 data (n - 1)) := by
  intro n
  induction n with
  | zero => rfl
  | succ k ih =>
      rw [List.range_succ, List.foldl_append, ih]
      simp [epochBody, trainState, epochLossSum]

/-- C2: for `n_epochs ≥ 1` over a non-empty loader, `train_model` returns the
sum of the per-batch loss values of the LAST epoch only (the accumulator is
reset at the start of each epoch), divided by the loader's total step count
`len(data_loader)`. -/
theorem train_model_returns_last_epoch_mean {σ β : Type} (step : σ → β → σ × ℚ)
    (s0 : σ) (data : List β) (n_epochs : ℕ)
    (hn : 1 ≤ n_epochs) (hd : 0 < data.length) :
    train_model step s0 data n_epochs
      = epochLossSum step s0 data (n_epochs - 1) / (data.length : ℚ) := by
  unfold train_model
  rw [train_fold_eq]
  simp [Nat.pos_iff_ne_zero.mp hn]

/-- Witness for C2: a two-epoch run over a two-batch loader, with a step
function whose losses differ between epochs; the returned value is the last
epoch's loss sum (3 + 5 = 8) divided by the step count 2, and not any
quantity involving the first epoch's losses (1 and 3). -/
theorem train_model_returns_last_epoch_mean_witness :
    (train_model (fun (s : ℚ) (b : ℚ) => (s + 1, s + b)) 0 [1, 2] 2
        = epochLossSum (fun (s : ℚ) (b : ℚ) => (s + 1, s + b)) 0 [1, 2] (2 - 1)
            / (([(1 : ℚ), 2].length : ℕ) : ℚ)) ∧
      train_model (fun (s : ℚ) (b : ℚ) => (s + 1, s + b)) 0 [1, 2] 2 = 4 :=
  ⟨train_model_returns_last_epoch_mean (fun (s : ℚ) (b : ℚ) => (s + 1, s + b))
      0 [1, 2] 2 (by norm_num) (by decide),
    by norm_num [train_model, epochBody, runEpoch, List.range_succ]⟩

/-- A `torch.device`, as PyTorch compares them: a device type string together
with an optional index.  `torch.device('cuda')` carries no index, so it
compares UNEQUAL to `torch.device('cuda:0')`. -/
structure TorchDevice where
  dtype : String
  index : Option ℕ
  deriving DecidableEq

/-- The value `torch.device('cuda')`. -/
def devCuda : TorchDevice := { dtype := "cuda", index := none }

/-- The value `torch.device('mps')`. -/
def devMps : TorchDevice := { dtype := "mps", index := none }

/-- The value `torch.device('cpu')`. -/
def devCpu : TorchDevice := { dtype := "cpu", index := none }

/-- The value `torch.device('cuda:0')`: same device type as `devCuda` but
with an explicit index, hence a different value. -/
def devCuda0 : TorchDevice := { dtype := "cuda", index := some 0 }

/-- Function `save_model` (model.py lines 123-130): `torch.save` writes the
model's parameter state to `save_path`.  The file system is a map from paths
to stored parameter states. -/
def save_model {P : Type} (fs : String → Option P) (model : P) (save_path : String) :
    String → Option P :=
  fun q => if q = save_path then some model else fs q

/-- The call `torch.load(save_path, map_location=...)`: reads the stored
parameter state at the path, failing (Python `FileNotFoundError`) when no file
is there.  The map-location string does not change which value is loaded. -/
def torchLoad {P : Type} (fs : String → Option P) (p : String) : Except String P :=
  match fs p with
  | some ck => Except.ok ck
  | none => Except.error "FileNotFoundError"

/-- One of the three guarded load statements at the top of `load_model`
(model.py lines 78-83): when a save path is given and the device equals
`target`, the model's parameters are replaced by the loaded checkpoint
(`model.load_state_dict(torch.load(...))`); otherwise the parameters are kept. -/
def loadStep {P : Type} (fs : String → Option P) (save_path : Option String)
    (device target : TorchDevice) (model : P) : Except String P :=
  match save_path with
  | some p => if device = target then torchLoad fs p else Except.ok model
  | none => Except.ok model

/-- The checkpoint-restoring prelude of `load_model` (model.py lines 78-83):
three sequential guarded loads, one per exactly-matched device value
(`cuda`, `mps`, `cpu`). -/
def loadCheckpoint {P : Type} (fs : String → Option P) (model : P)
    (device : TorchDevice) (save_path : Option String) : Except String P := do
  let m1 ← loadStep fs save_path device devCuda model
  let m2 ← loadStep fs save_path device devMps m1
  loadStep fs save_path device devCpu m2

/-- The tally `n_class_samples[c]` built by the evaluation loop of
`load_model` (model.py lines 101-111): the number of samples whose label
is `c`. -/
def countLabel {α : Type} (data : List (α × ℕ)) (c : ℕ) : ℕ :=
  (data.filter fun b => b.2 == c).length

/-- The tally `n_class_correct[c]`: the number of samples with label `c` that
the model predicted correctly. -/
def countCorrectLabel {α : Type} (pr : α → ℕ) (data : List (α × ℕ)) (c : ℕ) : ℕ :=
  (data.filter fun b => pr b.1 == b.2 && b.2 == c).length

/-- A Python float division `a / b`: raises `ZeroDivisionError` when the
divisor is zero (modelled by the `Except.error` value), and otherwise returns
the quotient (exact rational arithmetic stands in for floats). -/
def pyDivQ (a b : ℚ) : Except String ℚ :=
  if b = 0 then Except.error "ZeroDivisionError" else Except.ok (a / b)

/-- The per-class accuracy loop of `load_model` (model.py lines 116-119):
for each class index in order, computes
`100.0 * n_class_correct[i] / n_class_samples[i]` — an unguarded division. -/
def classAccuracies (ccor csamp : ℕ → ℕ) : List ℕ → Except String (List ℚ)
  | [] => Except.ok []
  | c :: cs => do
      let a ← pyDivQ (100 * (ccor c : ℚ)) ((csamp c : ℚ))
      let rest ← classAccuracies ccor csamp cs
      Except.ok (a :: rest)

/-- Function `load_model` (model.py lines 61-120), with printing and the
`show_wrongs` display omitted (they affect no returned value): optionally
restores parameters from `save_path` (device-keyed), predicts the argmax class
of every sample (the forward pass and `torch.max` are abstracted into
`predict`), computes the overall accuracy `100.0 * n_correct / n_samples`,
and, when `class_results` is set, the per-class accuracies. -/
def load_model {P α : Type} (predict : P → α → ℕ) (fs : String → Option P)
    (model : P) (data : List (α × ℕ)) (classification : List String)
    (device : TorchDevice) (save_path : Option String) (class_results : Bool) :
    Except String ℚ := do
  let m ← loadCheckpoint fs model device save_path
  let n_correct := (data.filter fun b => predict m b.1 == b.2).length
  let n_samples := data.length
  let total_accuracy ← pyDivQ (100 * (n_correct : ℚ)) ((n_samples : ℚ))
  if class_results then
    let _ ← classAccuracies (countCorrectLabel (predict m) data) (countLabel data)
      (List.range classification.length)
    Except.ok total_accuracy
  else
    Except.ok total_accuracy

lemma loadCheckpoint_none {P : Type} (fs : String → Option P) (model : P)
    (device : TorchDevice) :
    loadCheckpoint fs model device none = Except.ok model := by
  rfl

lemma classAccuracies_error_of_mem (ccor csamp : ℕ → ℕ) (l : List ℕ) (i : ℕ)
    (hmem : i ∈ l) (hz : csamp i = 0) :
    classAccuracies ccor csamp l = Except.error "ZeroDivisionError" := by
  induction l with
  | nil => cases hmem
  | cons c cs ih =>
      by_cases hc : csamp c = 0
      · simp only [classAccuracies, pyDivQ, Nat.cast_eq_zero, hc, if_true]
        rfl
      · rcases List.mem_cons.mp hmem with heq | hmem'
        · exact absurd (heq ▸ hz) hc
        · simp only [classAccuracies, pyDivQ, Nat.cast_eq_zero, hc, if_false, ih hmem']
          rfl

lemma devCuda_ne_devMps : devCuda ≠ devMps := by decide

lemma devCuda_ne_devCpu : devCuda ≠ devCpu := by decide

lemma devMps_ne_devCpu : devMps ≠ devCpu := by decide

lemma exceptBind_ok {ε a b : Type} (x : a) (f : a → Except ε b) :
    (Except.ok x >>= f) = f x := rfl

lemma exceptBind_error {ε a b : Type} (e : ε) (f : a → Except ε b) :
    ((Except.error e : Except ε a) >>= f) = Except.error e := rfl

/-- C4: when `load_model` runs with `class_results` enabled and some class
index below `len(classification)` has zero samples in the evaluation data,
the per-class accuracy computation divides by zero unguarded and the call
fails with the division error. -/
theorem load_model_zero_class_samples_fails {P α : Type} (predict : P → α → ℕ)
    (fs : String → Option P) (model : P) (data : List (α × ℕ))
    (classification : List String) (device : TorchDevice) (i : ℕ)
    (hi : i < classification.length) (hz : countLabel data i = 0) :
    load_model predict fs model data classification device none true
      = Except.error "ZeroDivisionError" := by
  unfold load_model
  rw [loadCheckpoint_none, exceptBind_ok]
  by_cases hd : data.length = 0
  · simp [pyDivQ, hd, exceptBind_ok, exceptBind_error]
  · have herr := classAccuracies_error_of_mem
      (countCorrectLabel (predict model) data) (countLabel data)
      (List.range classification.length) i (List.mem_range.mpr hi) hz
    simp only [pyDivQ, Nat.cast_eq_zero, hd, if_false, exceptBind_ok, if_true, herr,
      exceptBind_error]

/-- Witness for C4: a singleton evaluation set whose only label is class 0,
evaluated against the class list `["cat", "dog"]` — class 1 has zero samples
and the call returns the division error. -/
theorem load_model_zero_class_samples_fails_witness :
    countLabel ([((), 0)] : List (Unit × ℕ)) 1 = 0 ∧
      load_model (fun (_ : ℕ) (_ : Unit) => 0) (fun _ => none) 0 [((), 0)]
          ["cat", "dog"] devCpu none true = Except.error "ZeroDivisionError" :=
  ⟨by decide,
    load_model_zero_class_samples_fails (fun (_ : ℕ) (_ : Unit) => 0) (fun _ => none)
      0 [((), 0)] ["cat", "dog"] devCpu 1 (by decide) (by decide)⟩

/-- C7: saving a model's parameter state to a path and then running the
checkpoint-restoring prelude of `load_model` on another model of the same
architecture with that path restores exactly the saved parameter state (for
each of the three device values the code matches on), so any prediction
function applied to the restored parameters agrees with the original. -/
theorem save_then_load_restores_params {P : Type} (fs : String → Option P)
    (m m2 : P) (path : String) (device : TorchDevice)
    (hdev : device = devCuda ∨ device = devMps ∨ device = devCpu) :
    loadCheckpoint (save_model fs m path) m2 device (some path) = Except.ok m ∧
      ∀ (T R : Type) (predict : P → T → R) (x : T),
        Except.map (fun w => predict w x)
            (loadCheckpoint (save_model fs m path) m2 device (some path))
          = Except.ok (predict m x) := by
  have hsave : save_model fs m path path = some m := by simp [save_model]
  have hfirst :
      loadCheckpoint (save_model fs m path) m2 device (some path) = Except.ok m := by
    rcases hdev with h | h | h <;> subst h <;>
      simp [loadCheckpoint, loadStep, torchLoad, hsave, exceptBind_ok,
        devCuda_ne_devMps, devCuda_ne_devCpu, devMps_ne_devCpu,
        Ne.symm devCuda_ne_devMps, Ne.symm devCuda_ne_devCpu, Ne.symm devMps_ne_devCpu]
  exact ⟨hfirst, fun T R predict x => by rw [hfirst]; rfl⟩

/-- Witness for C7: parameter state 7 saved at `"model.pth"`, then restored
onto a model holding 3, on the cpu device; the prediction function adds its
input to the parameter value. -/
theorem save_then_load_restores_params_witness :
    loadCheckpoint (save_model (fun _ => (none : Option ℕ)) 7 "model.pth") 3 devCpu
        (some "model.pth") = Except.ok 7 ∧
      Except.map (fun w => w + 1)
          (loadCheckpoint (save_model (fun _ => (none : Option ℕ)) 7 "model.pth") 3
            devCpu (some "model.pth"))
        = Except.ok (7 + 1) :=
  ⟨(save_then_load_restores_params (fun _ => none) 7 3 "model.pth" devCpu
      (Or.inr (Or.inr rfl))).1,
    (save_then_load_restores_params (fun _ => none) 7 3 "model.pth" devCpu
      (Or.inr (Or.inr rfl))).2 ℕ ℕ (fun w x => w + x) 1⟩

/-- C9: a non-None save path with a device unequal to each of
`torch.device('cuda')`, `torch.device('mps')` and `torch.device('cpu')`
(e.g. `torch.device('cuda:0')`) performs no checkpoint load at all: the
model's parameters are left unchanged, and `load_model` behaves exactly as
if no save path had been given — evaluation silently proceeds with the
in-memory parameters. -/
theorem load_model_skips_unmatched_device {P : Type} (fs : String → Option P)
    (model : P) (path : String) (device : TorchDevice)
    (h1 : device ≠ devCuda) (h2 : device ≠ devMps) (h3 : device ≠ devCpu) :
    loadCheckpoint fs model device (some path) = Except.ok model ∧
      ∀ (α : Type) (predict : P → α → ℕ) (data : List (α × ℕ))
        (classification : List String) (class_results : Bool),
        load_model predict fs model data classification device (some path) class_results
          = load_model predict fs model data classification device none class_results := by
  have hfirst : loadCheckpoint fs model device (some path) = Except.ok model := by
    simp [loadCheckpoint, loadStep, h1, h2, h3, exceptBind_ok]
  refine ⟨hfirst, ?_⟩
  intro α predict data classification class_results
  unfold load_model
  rw [hfirst, loadCheckpoint_none]

/-- Witness for C9: device `cuda:0` with a file system that DOES hold a
checkpoint (parameter state 99) at every path; the model's in-memory
parameter state 7 is kept and no load happens. -/
theorem load_model_skips_unmatched_device_witness :
    loadCheckpoint (fun _ => some 99) 7 devCuda0 (some "model.pth") = Except.ok 7 :=
  (load_model_skips_unmatched_device (fun _ => some 99) 7 "model.pth" devCuda0
    (by decide) (by decide) (by decide)).1

/-- The layers a `ConvNet` instance holds, as abstract tensor transformers:
`conv1`, `maxPool3`, `conv2`, `maxPool2`, the `x.view(-1, flattened)`
reshape, the four fully-connected layers and the
`torch.nn.functional.relu` activation.  Their tensor arithmetic lives in the
external library; `forward` only composes them. -/
structure NetFuns (T : Type) where
  conv1 : T → T
  maxPool3 : T → T
  conv2 : T → T
  maxPool2 : T → T
  view : T → T
  fc1 : T → T
  fc2 : T → T
  fc3 : T → T
  fc4 : T → T
  relu : T → T

/-- Method `ConvNet.forward` (model.py lines 158-166), statement by
statement. -/
def NetFuns.forward {T : Type} (N : NetFuns T) (x : T) : T :=
  let x1 := N.maxPool3 (N.relu (N.conv1 x))
  let x2 := N.maxPool2 (N.relu (N.conv2 x1))
  let x3 := N.view x2
  let x4 := N.relu (N.fc1 x3)
  let x5 := N.relu (N.fc2 x4)
  let x6 := N.relu (N.fc3 x5)
  N.fc4 x6

/-- The spec's pipeline `conv1 → pool(3) → conv2 → pool(2) → flatten → fc1 →
fc2 → fc3 → fc4`, reading "rectified-linear activation after every layer
except the last" as: after every parameter-bearing layer (the convolutions
and fully-connected layers) other than `fc4`; pooling and the flatten
reshape carry no activation of their own. -/
def NetFuns.specPipeline {T : Type} (N : NetFuns T) : T → T :=
  N.fc4 ∘ (N.relu ∘ N.fc3) ∘ (N.relu ∘ N.fc2) ∘ (N.relu ∘ N.fc1) ∘
    N.view ∘ N.maxPool2 ∘ (N.relu ∘ N.conv2) ∘ N.maxPool3 ∘ (N.relu ∘ N.conv1)

/-- The spec's pipeline under the fully literal reading of "activation after
every layer except the last": a rectified-linear activation also follows each
pooling stage and the flatten reshape. -/
def NetFuns.literalPipeline {T : Type} (N : NetFuns T) : T → T :=
  N.fc4 ∘ (N.relu ∘ N.fc3) ∘ (N.relu ∘ N.fc2) ∘ (N.relu ∘ N.fc1) ∘
    (N.relu ∘ N.view) ∘ (N.relu ∘ N.maxPool2) ∘ (N.relu ∘ N.conv2) ∘
    (N.relu ∘ N.maxPool3) ∘ (N.relu ∘ N.conv1)

/-- C8: `forward` computes exactly the spec's fixed pipeline with an
activation after each parameter-bearing layer except `fc4` (first conjunct,
no side conditions); and under the properties the real layers have — the
activation is idempotent and commutes with max-pooling and with the flatten
reshape — it equals even the fully literal "activation after every layer
except the last" pipeline (second conjunct). -/
theorem forward_is_fixed_pipeline {T : Type} (N : NetFuns T)
    (hidem : ∀ y, N.relu (N.relu y) = N.relu y)
    (hpool3 : ∀ y, N.relu (N.maxPool3 y) = N.maxPool3 (N.relu y))
    (hpool2 : ∀ y, N.relu (N.maxPool2 y) = N.maxPool2 (N.relu y))
    (hview : ∀ y, N.relu (N.view y) = N.view (N.relu y)) :
    (∀ x, N.forward x = N.specPipeline x) ∧
      (∀ x, N.forward x = N.literalPipeline x) := by
  constructor
  · intro x
    rfl
  · intro x
    simp only [NetFuns.forward, NetFuns.literalPipeline, Function.comp_apply]
    rw [hpool3, hidem, hpool2, hidem, hview, hpool2, hidem]

/-- A concrete instantiation of the layer functions over `ℤ`: the activation
is the absolute value (idempotent, commutes with the scaling pool stages and
the identity reshape). -/
def demoNet : NetFuns ℤ :=
  { conv1 := fun y => y - 5
    maxPool3 := fun y => 2 * y
    conv2 := fun y => y + 1
    maxPool2 := fun y => y
    view := fun y => y
    fc1 := fun y => y - 2
    fc2 := fun y => y + 7
    fc3 := fun y => y - 10
    fc4 := fun y => y * 3
    relu := fun y => |y| }

/-- Witness for C8: on `demoNet` the hypotheses hold and the pipeline
equalities evaluate at the concrete input 5. -/
theorem forward_is_fixed_pipeline_witness :
    demoNet.forward 5 = demoNet.specPipeline 5 ∧
      demoNet.forward 5 = demoNet.literalPipeline 5 ∧
      demoNet.forward 5 = 6 :=
  ⟨(forward_is_fixed_pipeline demoNet (fun y => abs_abs y)
        (fun y => by simp [demoNet, abs_mul])
        (fun y => rfl) (fun y => rfl)).1 5,
    (forward_is_fixed_pipeline demoNet (fun y => abs_abs y)
        (fun y => by simp [demoNet, abs_mul])
        (fun y => rfl) (fun y => rfl)).2 5,
    by decide⟩
